import Mathlib

/-!
Verification of the task-flow notification service core.

This file shallowly embeds the notification service of the repository:
the Redis-backed presence store and offline-notification store
(src/services/notification-service/src/config/redis.js), the task-event
fan-out (handleTaskEvent and startConsumers in the same directory), and
the socket request handlers
(src/services/notification-service/src/handlers/socketHandlers.js).

Modelling conventions:
- JSON serialisation (JSON.stringify before a store write, JSON.parse on
  read) is embedded as the identity on typed records, since the code
  round-trips every stored value through JSON unchanged.
- Ambient time (new Date().toISOString(), Date.now()) and the random id
  suffix are passed in as explicit string parameters.
- The Redis connection is an `Option RedisState` (the module-level
  `client`, which is null until connectRedis succeeds), plus a `faulty`
  flag meaning the store is unreachable so every primitive call raises;
  the try/catch wrapper of each operation is embedded as `catchDefault`.
- The single Redis keyspace is split by key family (`user_session:*`
  strings, the `online_users` set, `notifications:*` lists) into typed
  association lists; the key prefixes used by the code are injective, so
  the families never collide.
-/

/-- Look up a key in an association list (first match wins). -/
def getAssoc {α : Type} (k : String) : List (String × α) → Option α
  | [] => none
  | p :: rest => if p.1 = k then some p.2 else getAssoc k rest

/-- Set a key in an association list, replacing any previous binding. -/
def setAssoc {α : Type} (k : String) (v : α) (l : List (String × α)) : List (String × α) :=
  (k, v) :: l.filter (fun p => p.1 ≠ k)

/-- Delete every binding of a key in an association list. -/
def delAssoc {α : Type} (k : String) (l : List (String × α)) : List (String × α) :=
  l.filter (fun p => p.1 ≠ k)

theorem getAssoc_filter_ne {α : Type} (k k' : String) (h : k' ≠ k) (l : List (String × α)) :
    getAssoc k' (l.filter (fun p => p.1 ≠ k)) = getAssoc k' l := by
  induction l with
  | nil => rfl
  | cons p rest ih =>
    by_cases hp : p.1 = k
    · rw [List.filter_cons_of_neg (by simp [hp])]
      rw [ih]
      exact (if_neg (fun hh : p.1 = k' => h (hh ▸ hp))).symm
    · rw [List.filter_cons_of_pos (by simp [hp])]
      show (if p.1 = k' then some p.2 else getAssoc k' (rest.filter (fun p => p.1 ≠ k)))
          = if p.1 = k' then some p.2 else getAssoc k' rest
      rw [ih]

@[simp] theorem getAssoc_setAssoc_self {α : Type} (k : String) (v : α) (l : List (String × α)) :
    getAssoc k (setAssoc k v l) = some v := by
  simp [getAssoc, setAssoc]

theorem getAssoc_setAssoc_ne {α : Type} (k k' : String) (h : k' ≠ k) (v : α)
    (l : List (String × α)) : getAssoc k' (setAssoc k v l) = getAssoc k' l := by
  show (if k = k' then some v else getAssoc k' (l.filter (fun p => p.1 ≠ k))) = getAssoc k' l
  rw [if_neg (fun hh : k = k' => h hh.symm)]
  exact getAssoc_filter_ne k k' h l

@[simp] theorem getAssoc_delAssoc_self {α : Type} (k : String) (l : List (String × α)) :
    getAssoc k (delAssoc k l) = none := by
  simp only [delAssoc]
  induction l with
  | nil => rfl
  | cons p rest ih =>
    by_cases hp : p.1 = k
    · rw [List.filter_cons_of_neg (by simp [hp])]
      exact ih
    · rw [List.filter_cons_of_pos (by simp [hp])]
      show (if p.1 = k then some p.2 else getAssoc k (rest.filter (fun p => p.1 ≠ k))) = none
      rw [if_neg hp]
      exact ih

@[simp] theorem delAssoc_delAssoc {α : Type} (k : String) (l : List (String × α)) :
    delAssoc k (delAssoc k l) = delAssoc k l := by
  simp only [delAssoc]
  induction l with
  | nil => rfl
  | cons p rest ih =>
    by_cases hp : p.1 = k
    · rw [List.filter_cons_of_neg (by simp [hp])]
      exact ih
    · rw [List.filter_cons_of_pos (by simp [hp]), List.filter_cons_of_pos (by simp [hp])]
      rw [ih]

/-- Session metadata the socket layer passes to storeUserSession:
`{ email, role, connectedAt }` (socketHandlers.js, registerHandlers). -/
structure UserData where
  email : String
  role : String
  connectedAt : String
deriving DecidableEq, Repr

/-- The record written under `user_session:{userId}`:
`{ socketId, ...userData, lastSeen }` (redis.js, storeUserSession). -/
structure SessionData where
  socketId : String
  email : String
  role : String
  connectedAt : String
  lastSeen : String
deriving DecidableEq, Repr

/-- The notification payload handed to the offline store (type/title/message
of the Notification object; other fields are carried opaquely by the code). -/
structure NotifPayload where
  type : String
  title : String
  message : String
deriving DecidableEq, Repr

/-- The record pushed onto `notifications:{userId}`:
`{ ...notification, id, stored: true }` (redis.js, storeOfflineNotification). -/
structure StoredNotification where
  payload : NotifPayload
  id : String
  stored : Bool
deriving DecidableEq, Repr

/-- The slice of the Redis keyspace the notification service touches,
split by key family. TTL maps record the setEx / expire arguments. -/
structure RedisState where
  sessions : List (String × SessionData)
  sessionTtls : List (String × Nat)
  onlineUsers : List String
  notifQueues : List (String × List StoredNotification)
  notifTtls : List (String × Nat)
deriving DecidableEq, Repr

/-- A Redis state with no keys. -/
def emptyRedis : RedisState := ⟨[], [], [], [], []⟩

/-- SETEX key ttl value on the session family. -/
def RedisState.setEx (st : RedisState) (key : String) (ttl : Nat) (v : SessionData) :
    RedisState :=
  { st with sessions := setAssoc key v st.sessions,
            sessionTtls := setAssoc key ttl st.sessionTtls }

/-- GET key on the session family. -/
def RedisState.getKey (st : RedisState) (key : String) : Option SessionData :=
  getAssoc key st.sessions

/-- DEL key on the session family (removes the key and its TTL). -/
def RedisState.delSession (st : RedisState) (key : String) : RedisState :=
  { st with sessions := delAssoc key st.sessions,
            sessionTtls := delAssoc key st.sessionTtls }

/-- SADD online_users member. -/
def RedisState.sAdd (st : RedisState) (m : String) : RedisState :=
  if st.onlineUsers.contains m then st else { st with onlineUsers := m :: st.onlineUsers }

/-- SREM online_users member. -/
def RedisState.sRem (st : RedisState) (m : String) : RedisState :=
  { st with onlineUsers := st.onlineUsers.filter (fun x => x ≠ m) }

/-- SMEMBERS online_users. -/
def RedisState.sMembers (st : RedisState) : List String :=
  st.onlineUsers

/-- LPUSH key value on the notification-list family (new element at the front). -/
def RedisState.lPush (st : RedisState) (key : String) (v : StoredNotification) : RedisState :=
  { st with notifQueues :=
      setAssoc key (v :: (getAssoc key st.notifQueues).getD []) st.notifQueues }

/-- LTRIM key i j: keep only the elements at indices i..j. -/
def RedisState.lTrim (st : RedisState) (key : String) (i j : Nat) : RedisState :=
  { st with notifQueues :=
      (setAssoc key ((((getAssoc key st.notifQueues).getD []).drop i).take (j + 1 - i))
        st.notifQueues) }

/-- EXPIRE key seconds on the notification-list family. -/
def RedisState.expire (st : RedisState) (key : String) (secs : Nat) : RedisState :=
  { st with notifTtls := setAssoc key secs st.notifTtls }

/-- LRANGE key 0 -1: the whole list (empty for a missing key). -/
def RedisState.lRangeAll (st : RedisState) (key : String) : List StoredNotification :=
  (getAssoc key st.notifQueues).getD []

/-- DEL key on the notification-list family. -/
def RedisState.delNotif (st : RedisState) (key : String) : RedisState :=
  { st with notifQueues := delAssoc key st.notifQueues,
            notifTtls := delAssoc key st.notifTtls }

/-- An awaited Redis client call: raises when the store is unreachable. -/
def attempt {α : Type} (faulty : Bool) (a : α) : Except String α :=
  if faulty then Except.error "store unreachable" else Except.ok a

/-- Sequencing of awaited calls with exception propagation. -/
def andThen {α β : Type} : Except String α → (α → Except String β) → Except String β
  | Except.error e, _ => Except.error e
  | Except.ok a, f => f a

/-- The try/catch wrapper each store operation puts around its body:
an exception is logged and the fallback value returned. -/
def catchDefault {α : Type} (body : Except String α) (fallback : α) : α :=
  match body with
  | Except.ok a => a
  | Except.error _ => fallback

@[simp] theorem attempt_false {α : Type} (a : α) : attempt false a = Except.ok a := rfl

@[simp] theorem attempt_true {α : Type} (a : α) :
    attempt true a = Except.error "store unreachable" := rfl

@[simp] theorem andThen_ok {α β : Type} (a : α) (f : α → Except String β) :
    andThen (Except.ok a) f = f a := rfl

@[simp] theorem andThen_error {α β : Type} (e : String) (f : α → Except String β) :
    andThen (Except.error e) f = Except.error e := rfl

@[simp] theorem catchDefault_ok {α : Type} (a fallback : α) :
    catchDefault (Except.ok a) fallback = a := rfl

@[simp] theorem catchDefault_error {α : Type} (e : String) (fallback : α) :
    catchDefault (Except.error e) fallback = fallback := rfl

/-- Body of storeUserSession: setEx the session record with a 1 hour TTL,
then sAdd to the online set (redis.js lines 51-70). -/
def storeUserSessionBody (st : RedisState) (faulty : Bool) (userId socketId : String)
    (userData : UserData) (now : String) : Except String RedisState :=
  let sessionKey := "user_session:" ++ userId
  let sessionData : SessionData :=
    { socketId := socketId, email := userData.email, role := userData.role,
      connectedAt := userData.connectedAt, lastSeen := now }
  andThen (attempt faulty (st.setEx sessionKey 3600 sessionData)) (fun st1 =>
    andThen (attempt faulty (st1.sAdd userId)) Except.ok)

/-- storeUserSession: no-op when the client is absent; errors are caught and
leave the caller with the store as it was. -/
def storeUserSession (client : Option RedisState) (faulty : Bool) (userId socketId : String)
    (userData : UserData) (now : String) : Option RedisState :=
  match client with
  | none => none
  | some st => some (catchDefault (storeUserSessionBody st faulty userId socketId userData now) st)

/-- Body of removeUserSession: del the session key, then sRem from the
online set (redis.js lines 73-86). -/
def removeUserSessionBody (st : RedisState) (faulty : Bool) (userId : String) :
    Except String RedisState :=
  let sessionKey := "user_session:" ++ userId
  andThen (attempt faulty (st.delSession sessionKey)) (fun st1 =>
    andThen (attempt faulty (st1.sRem userId)) Except.ok)

/-- removeUserSession with the null-client guard and the catch-all. -/
def removeUserSession (client : Option RedisState) (faulty : Bool) (userId : String) :
    Option RedisState :=
  match client with
  | none => none
  | some st => some (catchDefault (removeUserSessionBody st faulty userId) st)

/-- Body of getUserSession: GET the session key; a missing key is null
(redis.js lines 89-101). -/
def getUserSessionBody (st : RedisState) (faulty : Bool) (userId : String) :
    Except String (Option SessionData) :=
  andThen (attempt faulty (st.getKey ("user_session:" ++ userId))) Except.ok

/-- getUserSession: null when the client is absent or the call raises. -/
def getUserSession (client : Option RedisState) (faulty : Bool) (userId : String) :
    Option SessionData :=
  match client with
  | none => none
  | some st => catchDefault (getUserSessionBody st faulty userId) none

/-- An entry of the getOnlineUsers result: `{ userId, ...session }`. -/
structure OnlineUser where
  userId : String
  session : SessionData
deriving DecidableEq, Repr

/-- Body of getOnlineUsers: SMEMBERS online_users, then resolve each id
through getUserSession, skipping ids whose record is gone
(redis.js lines 104-126). -/
def getOnlineUsersBody (st : RedisState) (faulty : Bool) : Except String (List OnlineUser) :=
  andThen (attempt faulty st.sMembers) (fun userIds =>
    Except.ok (userIds.filterMap (fun uid =>
      match getUserSession (some st) faulty uid with
      | some session => some { userId := uid, session := session }
      | none => none)))

/-- getOnlineUsers: the empty list when the client is absent or the call raises. -/
def getOnlineUsers (client : Option RedisState) (faulty : Bool) : List OnlineUser :=
  match client with
  | none => []
  | some st => catchDefault (getOnlineUsersBody st faulty) []

/-- Body of storeOfflineNotification: LPUSH the stored record, LTRIM to the
most recent 50, EXPIRE the list to 7 days (redis.js lines 129-151).
`nid` is the generated id (Date.now plus random suffix). -/
def storeOfflineNotificationBody (st : RedisState) (faulty : Bool) (userId : String)
    (notification : NotifPayload) (nid : String) : Except String RedisState :=
  let notificationKey := "notifications:" ++ userId
  let notificationData : StoredNotification :=
    { payload := notification, id := nid, stored := true }
  andThen (attempt faulty (st.lPush notificationKey notificationData)) (fun st1 =>
    andThen (attempt faulty (st1.lTrim notificationKey 0 49)) (fun st2 =>
      andThen (attempt faulty (st2.expire notificationKey (7 * 24 * 60 * 60))) Except.ok))

/-- storeOfflineNotification with the null-client guard and the catch-all. -/
def storeOfflineNotification (client : Option RedisState) (faulty : Bool) (userId : String)
    (notification : NotifPayload) (nid : String) : Option RedisState :=
  match client with
  | none => none
  | some st =>
      some (catchDefault (storeOfflineNotificationBody st faulty userId notification nid) st)

/-- Body of getOfflineNotifications: LRANGE key 0 -1 and parse each entry
(redis.js lines 154-166). -/
def getOfflineNotificationsBody (st : RedisState) (faulty : Bool) (userId : String) :
    Except String (List StoredNotification) :=
  andThen (attempt faulty (st.lRangeAll ("notifications:" ++ userId))) Except.ok

/-- getOfflineNotifications: the empty list when the client is absent or the
call raises. -/
def getOfflineNotifications (client : Option RedisState) (faulty : Bool) (userId : String) :
    List StoredNotification :=
  match client with
  | none => []
  | some st => catchDefault (getOfflineNotificationsBody st faulty userId) []

/-- Body of clearOfflineNotifications: DEL the list key (redis.js lines 169-178). -/
def clearOfflineNotificationsBody (st : RedisState) (faulty : Bool) (userId : String) :
    Except String RedisState :=
  andThen (attempt faulty (st.delNotif ("notifications:" ++ userId))) Except.ok

/-- clearOfflineNotifications with the null-client guard and the catch-all. -/
def clearOfflineNotifications (client : Option RedisState) (faulty : Bool) (userId : String) :
    Option RedisState :=
  match client with
  | none => none
  | some st => some (catchDefault (clearOfflineNotificationsBody st faulty userId) st)

/-!
The task-event fan-out (rabbitmq config file: handleTaskEvent, startConsumers)
and the socket request handlers (socketHandlers.js). Socket.IO rooms are
embedded as a structured type: `Room.user u` stands for the room string
with the user prefix and u, `Room.role r` for the one with the role prefix
and r; the two prefixes are distinct, so the encoding is injective.
-/

/-- A participant reference inside a task snapshot. handleTaskEvent reads
only the userId field of assignedTo, createdBy, watchers and mentions. -/
structure UserRef where
  userId : String
deriving DecidableEq, Repr

/-- An embedded comment: content plus optional mentions list
(task.newComment.mentions may be absent). -/
structure TaskComment where
  content : String
  mentions : Option (List UserRef)
deriving DecidableEq, Repr

/-- The task snapshot carried by a lifecycle event. Optional fields model
the optional-chaining guards in handleTaskEvent. A UserRef whose userId is
the empty string models a reference object with a falsy userId. -/
structure TaskSnapshot where
  _id : String
  title : String
  status : String
  assignedTo : Option UserRef
  createdBy : Option UserRef
  watchers : Option (List UserRef)
  newComment : Option TaskComment
deriving DecidableEq, Repr

/-- A task lifecycle event: `{ eventType, task, userId, timestamp }`. -/
structure TaskEvent where
  eventType : String
  task : TaskSnapshot
  userId : String
  timestamp : String
deriving DecidableEq, Repr

/-- A Socket.IO room address used by handleTaskEvent. -/
inductive Room where
  | user : String → Room
  | role : String → Room
deriving DecidableEq, Repr

/-- The notification object emitted on the real-time channel: the base is
`{ type: task_update, timestamp, data: { taskId, eventType, task } }`, and
each switch case fills in title and message (and comment for comments). -/
structure NotificationMsg where
  type : String
  timestamp : String
  title : String
  message : String
  taskId : String
  eventType : String
  task : TaskSnapshot
  comment : Option TaskComment
deriving DecidableEq, Repr

/-- The unconditional broadcast payload: `{ eventType, task, userId, timestamp }`. -/
structure TaskUpdateMsg where
  eventType : String
  task : TaskSnapshot
  userId : String
  timestamp : String
deriving DecidableEq, Repr

/-- One emission on the real-time channel: a targeted notification event to
a room, or the task update broadcast to every connected session. -/
inductive Emission where
  | notify : Room → NotificationMsg → Emission
  | taskUpdate : TaskUpdateMsg → Emission
deriving DecidableEq, Repr

/-- Watcher loop: notify every watcher whose userId differs from the actor
(the watchers array may be absent). -/
def watcherEmits (ws : Option (List UserRef)) (actor : String) (n : NotificationMsg) :
    List Emission :=
  (ws.getD []).filterMap (fun w =>
    if w.userId ≠ actor then some (Emission.notify (Room.user w.userId) n) else none)

/-- Guarded single-user notify used for assignedTo and createdBy: requires
the reference to be present, its userId truthy (nonempty) and different
from the actor. -/
def notifyUserRef (ref : Option UserRef) (actor : String) (n : NotificationMsg) :
    List Emission :=
  match ref with
  | none => []
  | some a =>
      if a.userId ≠ "" ∧ a.userId ≠ actor then [Emission.notify (Room.user a.userId) n]
      else []

/-- Mention loop: when newComment.mentions is present, notify every mention
whose userId differs from the actor, with the mention-variant message. -/
def mentionEmits (newComment : Option TaskComment) (actor : String) (n : NotificationMsg) :
    List Emission :=
  match newComment with
  | none => []
  | some c =>
      match c.mentions with
      | none => []
      | some ms =>
          ms.filterMap (fun mention =>
            if mention.userId ≠ actor then
              some (Emission.notify (Room.user mention.userId) n)
            else none)

/-- The switch of handleTaskEvent: the targeted notifications for a known
event type, or none for the default case (which returns early). -/
def targetedEmits (event : TaskEvent) (now : String) : Option (List Emission) :=
  let task := event.task
  let userId := event.userId
  let base : NotificationMsg :=
    { type := "task_update", timestamp := now, title := "", message := "",
      taskId := task._id, eventType := event.eventType, task := task, comment := none }
  if event.eventType = "created" then
    let n := { base with title := "New Task Created",
                         message := "Task \"" ++ task.title ++ "\" has been created" }
    some (notifyUserRef task.assignedTo userId
            { n with message := "You have been assigned a new task: \"" ++ task.title ++ "\"" }
          ++ [Emission.notify (Room.role "project_manager") n,
              Emission.notify (Room.role "admin") n])
  else if event.eventType = "updated" then
    let n := { base with title := "Task Updated",
                         message := "Task \"" ++ task.title ++ "\" has been updated" }
    some (watcherEmits task.watchers userId n ++ notifyUserRef task.assignedTo userId n)
  else if event.eventType = "status_changed" then
    let n := { base with title := "Task Status Changed",
                         message := "Task \"" ++ task.title ++ "\" status changed to "
                           ++ task.status }
    some (watcherEmits task.watchers userId n ++ notifyUserRef task.createdBy userId n
          ++ notifyUserRef task.assignedTo userId n)
  else if event.eventType = "comment_added" then
    let n := { base with title := "New Comment Added",
                         message := "New comment on task \"" ++ task.title ++ "\"",
                         comment := task.newComment }
    some (watcherEmits task.watchers userId n
          ++ mentionEmits task.newComment userId
               { n with title := "You were mentioned",
                        message := "You were mentioned in a comment on task \""
                          ++ task.title ++ "\"" })
  else if event.eventType = "deleted" then
    let n := { base with title := "Task Deleted",
                         message := "Task \"" ++ task.title ++ "\" has been deleted" }
    some (watcherEmits task.watchers userId n ++ notifyUserRef task.assignedTo userId n)
  else
    none

/-- handleTaskEvent: the targeted notifications of the matching switch case
followed by the task update broadcast; an unknown event type returns early
and emits nothing. -/
def handleTaskEvent (event : TaskEvent) (now : String) : List Emission :=
  match targetedEmits event now with
  | none => []
  | some emits =>
      emits ++ [Emission.taskUpdate
        { eventType := event.eventType, task := event.task,
          userId := event.userId, timestamp := event.timestamp }]

/-- The event types enumerated by the switch of handleTaskEvent. -/
def knownEventTypes : List String :=
  ["created", "updated", "status_changed", "comment_added", "deleted"]

/-- A connected session: on connection it is auto-joined to the room of its
user id and the room of its role (notification service server.js). -/
structure Session where
  socketId : String
  userId : String
  email : String
  role : String
deriving DecidableEq, Repr

/-- Room membership of a connected session through the automatic joins. -/
def memberOf (s : Session) (r : Room) : Bool :=
  match r with
  | Room.user uid => uid == s.userId
  | Room.role ro => ro == s.role

/-- Whether a session receives at least one targeted notification event
from a list of emissions (the broadcast does not count). -/
def receivesNotify (s : Session) (es : List Emission) : Bool :=
  es.any (fun e =>
    match e with
    | Emission.notify r _ => memberOf s r
    | Emission.taskUpdate _ => false)

/-- Number of task update broadcasts in a list of emissions. -/
def taskUpdateCount (es : List Emission) : Nat :=
  es.countP (fun e =>
    match e with
    | Emission.taskUpdate _ => true
    | Emission.notify _ _ => false)

/-- The action the consumer takes on the broker channel for one message:
ack, or nack with the allUpTo and requeue flags. -/
inductive BrokerAction where
  | ack : BrokerAction
  | nack : Bool → Bool → BrokerAction
deriving DecidableEq, Repr

/-- One delivery of the task queue consumer (startConsumers): parse the
payload, process it with handleTaskEvent and ack; any exception is caught
and answered with nack(msg, false, false). The Except input stands for the
outcome of JSON-parsing the payload into a well-typed event; a payload
that would make processing throw (for instance a missing task object) is
a parse failure of the typed embedding. -/
def consumeTaskMessage (parsed : Except String TaskEvent) (now : String) :
    BrokerAction × List Emission :=
  match parsed with
  | Except.ok event => (BrokerAction.ack, handleTaskEvent event now)
  | Except.error _ => (BrokerAction.nack false false, [])

/-- Whether a broker action makes the broker deliver the message again to
this consumer: only a nack with requeue = true does. -/
def redelivers : BrokerAction → Bool
  | BrokerAction.ack => false
  | BrokerAction.nack _ requeue => requeue

/-- A socket user attached by the authentication middleware. -/
structure SocketUser where
  id : String
  email : String
  role : String
deriving DecidableEq, Repr

/-- A connected socket as the online-users handler sees it: its id and the
user attached by authentication (absent if unauthenticated). -/
structure Socket where
  id : String
  user : Option SocketUser
deriving DecidableEq, Repr

/-- An entry of the online_users reply: `{ userId, email, role }`. -/
structure OnlineEntry where
  userId : String
  email : String
  role : String
deriving DecidableEq, Repr

/-- The get:online_users handler (socketHandlers.js lines 104-117): iterate
every connected socket, keep those with a user and a different socket id,
in iteration order. -/
def getOnlineUsersReply (sockets : List Socket) (selfId : String) : List OnlineEntry :=
  sockets.filterMap (fun connectedSocket =>
    match connectedSocket.user with
    | some u =>
        if connectedSocket.id ≠ selfId then
          some { userId := u.id, email := u.email, role := u.role }
        else none
    | none => none)

/-- The get:offline_notifications handler (socketHandlers.js lines 19-28):
fetch the stored queue and emit a notifications:offline event only when it
is nonempty; `some l` is an emission carrying l, `none` is no emission. -/
def offlineNotificationsReply (client : Option RedisState) (faulty : Bool)
    (userId : String) : Option (List StoredNotification) :=
  let notifications := getOfflineNotifications client faulty userId
  if notifications.length > 0 then some notifications else none

/-! Projection lemmas for the Redis primitives. -/

@[simp] theorem setEx_sessions (st : RedisState) (k : String) (ttl : Nat) (v : SessionData) :
    (st.setEx k ttl v).sessions = setAssoc k v st.sessions := rfl

@[simp] theorem sAdd_sessions (st : RedisState) (m : String) :
    (st.sAdd m).sessions = st.sessions := by
  unfold RedisState.sAdd
  split <;> rfl

@[simp] theorem delSession_sessions (st : RedisState) (k : String) :
    (st.delSession k).sessions = delAssoc k st.sessions := rfl

@[simp] theorem sRem_sessions (st : RedisState) (m : String) :
    (st.sRem m).sessions = st.sessions := rfl

@[simp] theorem lPush_notifQueues (st : RedisState) (k : String) (v : StoredNotification) :
    (st.lPush k v).notifQueues
      = setAssoc k (v :: (getAssoc k st.notifQueues).getD []) st.notifQueues := rfl

@[simp] theorem lTrim_notifQueues (st : RedisState) (k : String) (i j : Nat) :
    (st.lTrim k i j).notifQueues
      = setAssoc k ((((getAssoc k st.notifQueues).getD []).drop i).take (j + 1 - i))
          st.notifQueues := rfl

@[simp] theorem expire_notifQueues (st : RedisState) (k : String) (secs : Nat) :
    (st.expire k secs).notifQueues = st.notifQueues := rfl

@[simp] theorem delNotif_notifQueues (st : RedisState) (k : String) :
    (st.delNotif k).notifQueues = delAssoc k st.notifQueues := rfl

/-- Claim C5: the consumer acknowledges a message exactly when parsing and
processing succeed, answers any exception with a negative acknowledgement
whose requeue flag is false, and consequently never makes the broker
redeliver a message to this consumer. -/
theorem consumer_ack_nack_policy (parsed : Except String TaskEvent) (now : String) :
    (∀ ev, parsed = Except.ok ev →
      (consumeTaskMessage parsed now).1 = BrokerAction.ack
      ∧ (consumeTaskMessage parsed now).2 = handleTaskEvent ev now)
    ∧ (∀ e, parsed = Except.error e →
      (consumeTaskMessage parsed now).1 = BrokerAction.nack false false)
    ∧ redelivers (consumeTaskMessage parsed now).1 = false := by
  cases parsed with
  | ok ev =>
      refine ⟨?_, ?_, rfl⟩
      · intro ev2 h
        cases h
        exact ⟨rfl, rfl⟩
      · intro e h
        exact Except.noConfusion h
  | error e =>
      refine ⟨?_, ?_, rfl⟩
      · intro ev2 h
        exact Except.noConfusion h
      · intro e2 h
        rfl

/-- Witness for C5 at a concrete malformed message. -/
theorem consumer_ack_nack_policy_witness :
    (consumeTaskMessage (Except.error "unexpected token") "now").1
      = BrokerAction.nack false false :=
  (consumer_ack_nack_policy (Except.error "unexpected token") "now").2.1
    "unexpected token" rfl

/-- Claim C6: with an absent client every presence and offline-store
operation is a no-op returning its degraded default, and with an
unreachable store every operation body raises while the operation itself
catches and returns the degraded default, leaving the state unchanged. -/
theorem store_ops_degrade_gracefully (st : RedisState) (f : Bool)
    (u sid now nid : String) (m : UserData) (p : NotifPayload) :
    storeUserSession none f u sid m now = none
    ∧ removeUserSession none f u = none
    ∧ getUserSession none f u = none
    ∧ getOnlineUsers none f = []
    ∧ storeOfflineNotification none f u p nid = none
    ∧ getOfflineNotifications none f u = []
    ∧ clearOfflineNotifications none f u = none
    ∧ storeUserSessionBody st true u sid m now = Except.error "store unreachable"
    ∧ storeUserSession (some st) true u sid m now = some st
    ∧ removeUserSession (some st) true u = some st
    ∧ getUserSession (some st) true u = none
    ∧ getOnlineUsers (some st) true = []
    ∧ storeOfflineNotification (some st) true u p nid = some st
    ∧ getOfflineNotifications (some st) true u = []
    ∧ clearOfflineNotifications (some st) true u = some st :=
  ⟨rfl, rfl, rfl, rfl, rfl, rfl, rfl, rfl, rfl, rfl, rfl, rfl, rfl, rfl, rfl⟩

/-- Claim C7: with the store reachable, a stored session is read back with
the socket id, the metadata fields and the write-time lastSeen, and after
removeUserSession the read returns absent. -/
theorem session_roundtrip (st : RedisState) (u s now : String) (m : UserData) :
    getUserSession (storeUserSession (some st) false u s m now) false u
      = some { socketId := s, email := m.email, role := m.role,
               connectedAt := m.connectedAt, lastSeen := now }
    ∧ getUserSession
        (removeUserSession (storeUserSession (some st) false u s m now) false u) false u
      = none := by
  constructor
  · simp [getUserSession, getUserSessionBody, storeUserSession, storeUserSessionBody,
      attempt, andThen, catchDefault, RedisState.getKey]
  · simp [getUserSession, getUserSessionBody, storeUserSession, storeUserSessionBody,
      removeUserSession, removeUserSessionBody, attempt, andThen, catchDefault,
      RedisState.getKey]

/-- Claim C8: with the store reachable, clearing a user's offline queue
makes a subsequent read return the empty list, and clearing twice equals
clearing once. -/
theorem clear_then_drain_empty_and_idempotent (st : RedisState) (u : String) :
    getOfflineNotifications (clearOfflineNotifications (some st) false u) false u = []
    ∧ clearOfflineNotifications (clearOfflineNotifications (some st) false u) false u
        = clearOfflineNotifications (some st) false u := by
  constructor
  · simp [getOfflineNotifications, getOfflineNotificationsBody, clearOfflineNotifications,
      clearOfflineNotificationsBody, attempt, andThen, catchDefault, RedisState.lRangeAll]
  · simp [clearOfflineNotifications, clearOfflineNotificationsBody, attempt, andThen,
      catchDefault, RedisState.delNotif]

/-- Claim C9: every entry of the online_users reply comes from a connected
authenticated socket other than the requesting one, and every such socket
contributes its entry; in particular the requesting session itself never
appears. -/
theorem online_users_excludes_requester (sockets : List Socket) (selfId : String) :
    (∀ e ∈ getOnlineUsersReply sockets selfId,
      ∃ cs, cs ∈ sockets ∧ cs.id ≠ selfId
        ∧ cs.user = some { id := e.userId, email := e.email, role := e.role })
    ∧ (∀ cs ∈ sockets, ∀ u, cs.user = some u → cs.id ≠ selfId →
        ({ userId := u.id, email := u.email, role := u.role } : OnlineEntry)
          ∈ getOnlineUsersReply sockets selfId) := by
  constructor
  · intro e he
    obtain ⟨cs, hcs, hf⟩ := List.mem_filterMap.mp he
    refine ⟨cs, hcs, ?_⟩
    split at hf
    next u heq =>
      split at hf
      next hid =>
        obtain rfl := Option.some.inj hf
        exact ⟨hid, heq⟩
      next => cases hf
    next => cases hf
  · intro cs hcs u hu hid
    exact List.mem_filterMap.mpr ⟨cs, hcs, by simp [hu, hid]⟩

/-- Witness for C9: with two authenticated sockets connected, the first
one's request returns the second socket's entry. -/
theorem online_users_excludes_requester_witness :
    ({ userId := "u2", email := "b@x", role := "team_member" } : OnlineEntry)
      ∈ getOnlineUsersReply
          [⟨"s1", some ⟨"u1", "a@x", "admin"⟩⟩, ⟨"s2", some ⟨"u2", "b@x", "team_member"⟩⟩]
          "s1" :=
  (online_users_excludes_requester
      [⟨"s1", some ⟨"u1", "a@x", "admin"⟩⟩, ⟨"s2", some ⟨"u2", "b@x", "team_member"⟩⟩]
      "s1").2
    ⟨"s2", some ⟨"u2", "b@x", "team_member"⟩⟩ (by decide)
    ⟨"u2", "b@x", "team_member"⟩ rfl (by decide)

/-- Claim C10: a notifications:offline event is emitted back exactly when
the stored queue is nonempty; an empty queue, an absent client or an
unreachable store all produce no reply at all. -/
theorem offline_reply_iff_nonempty (client : Option RedisState) (faulty : Bool)
    (u : String) :
    (offlineNotificationsReply client faulty u = none
      ↔ getOfflineNotifications client faulty u = [])
    ∧ (∀ l, offlineNotificationsReply client faulty u = some l →
        l = getOfflineNotifications client faulty u ∧ l ≠ [])
    ∧ offlineNotificationsReply none faulty u = none
    ∧ (∀ st, offlineNotificationsReply (some st) true u = none) := by
  refine ⟨?_, ?_, ?_, ?_⟩
  · cases hq : getOfflineNotifications client faulty u with
    | nil => simp [offlineNotificationsReply, hq]
    | cons a l => simp [offlineNotificationsReply, hq]
  · intro l hl
    cases hq : getOfflineNotifications client faulty u with
    | nil => rw [offlineNotificationsReply, hq] at hl; cases hl
    | cons a q =>
        rw [offlineNotificationsReply, hq] at hl
        simp only [List.length_cons, Nat.zero_lt_succ, if_pos] at hl
        obtain rfl := Option.some.inj hl.symm
        simp [hq]
  · rfl
  · intro st
    rfl

/-- Witness for C10 at a store holding one notification. -/
theorem offline_reply_iff_nonempty_witness :
    [({ payload := ⟨"task_update", "ti", "msg"⟩, id := "id1", stored := true }
        : StoredNotification)]
      = getOfflineNotifications
          (storeOfflineNotification (some emptyRedis) false "u" ⟨"task_update", "ti", "msg"⟩
            "id1") false "u"
    ∧ [({ payload := ⟨"task_update", "ti", "msg"⟩, id := "id1", stored := true }
        : StoredNotification)] ≠ ([] : List StoredNotification) :=
  (offline_reply_iff_nonempty
      (storeOfflineNotification (some emptyRedis) false "u" ⟨"task_update", "ti", "msg"⟩
        "id1") false "u").2.1
    [{ payload := ⟨"task_update", "ti", "msg"⟩, id := "id1", stored := true }] (by decide)

/-! Characterisation of the targeted emissions of handleTaskEvent. -/

theorem role_ne_user (r u : String) : Room.role r ≠ Room.user u :=
  fun hh => Room.noConfusion hh

theorem user_ne_user_of_ne {a b : String} (h : a ≠ b) : Room.user a ≠ Room.user b :=
  fun hh => h (Room.user.inj hh)

theorem mem_watcherEmits {ws : Option (List UserRef)} {actor : String}
    {n : NotificationMsg} {e : Emission} (h : e ∈ watcherEmits ws actor n) :
    ∃ w, w ∈ ws.getD [] ∧ w.userId ≠ actor
      ∧ e = Emission.notify (Room.user w.userId) n := by
  obtain ⟨w, hw, hf⟩ := List.mem_filterMap.mp h
  split at hf
  next hne =>
    obtain rfl := Option.some.inj hf
    exact ⟨w, hw, hne, rfl⟩
  next => cases hf

theorem mem_notifyUserRef {ref : Option UserRef} {actor : String}
    {n : NotificationMsg} {e : Emission} (h : e ∈ notifyUserRef ref actor n) :
    ∃ a, ref = some a ∧ a.userId ≠ "" ∧ a.userId ≠ actor
      ∧ e = Emission.notify (Room.user a.userId) n := by
  cases ref with
  | none => cases h
  | some a =>
      simp only [notifyUserRef] at h
      split at h
      next hc =>
        obtain rfl := List.mem_singleton.mp h
        exact ⟨a, rfl, hc.1, hc.2, rfl⟩
      next => cases h

theorem mem_mentionEmits {c : Option TaskComment} {actor : String}
    {n : NotificationMsg} {e : Emission} (h : e ∈ mentionEmits c actor n) :
    ∃ m : UserRef, m.userId ≠ actor ∧ e = Emission.notify (Room.user m.userId) n := by
  cases c with
  | none => cases h
  | some cm =>
      simp only [mentionEmits] at h
      split at h
      next => cases h
      next ms hms =>
        obtain ⟨m, hm, hf⟩ := List.mem_filterMap.mp h
        split at hf
        next hne =>
          obtain rfl := Option.some.inj hf
          exact ⟨m, hne, rfl⟩
        next => cases hf

/-- Every targeted emission of handleTaskEvent is a notification event, and
never to the acting user's own user room. -/
theorem targetedEmits_mem {ev : TaskEvent} {now : String} {es : List Emission}
    {e : Emission} (h : targetedEmits ev now = some es) (hm : e ∈ es) :
    ∃ room msg, e = Emission.notify room msg ∧ room ≠ Room.user ev.userId := by
  simp only [targetedEmits] at h
  split_ifs at h with hc1 hc2 hc3 hc4 hc5
  · obtain rfl := Option.some.inj h
    rcases List.mem_append.mp hm with hl | hr
    · obtain ⟨a, _, _, hne, rfl⟩ := mem_notifyUserRef hl
      exact ⟨_, _, rfl, user_ne_user_of_ne hne⟩
    · rcases List.mem_cons.mp hr with rfl | hr2
      · exact ⟨_, _, rfl, role_ne_user _ _⟩
      · obtain rfl := List.mem_singleton.mp hr2
        exact ⟨_, _, rfl, role_ne_user _ _⟩
  · obtain rfl := Option.some.inj h
    rcases List.mem_append.mp hm with hl | hr
    · obtain ⟨w, _, hne, rfl⟩ := mem_watcherEmits hl
      exact ⟨_, _, rfl, user_ne_user_of_ne hne⟩
    · obtain ⟨a, _, _, hne, rfl⟩ := mem_notifyUserRef hr
      exact ⟨_, _, rfl, user_ne_user_of_ne hne⟩
  · obtain rfl := Option.some.inj h
    rcases List.mem_append.mp hm with hl | hr
    · rcases List.mem_append.mp hl with hll | hlr
      · obtain ⟨w, _, hne, rfl⟩ := mem_watcherEmits hll
        exact ⟨_, _, rfl, user_ne_user_of_ne hne⟩
      · obtain ⟨a, _, _, hne, rfl⟩ := mem_notifyUserRef hlr
        exact ⟨_, _, rfl, user_ne_user_of_ne hne⟩
    · obtain ⟨a, _, _, hne, rfl⟩ := mem_notifyUserRef hr
      exact ⟨_, _, rfl, user_ne_user_of_ne hne⟩
  · obtain rfl := Option.some.inj h
    rcases List.mem_append.mp hm with hl | hr
    · obtain ⟨w, _, hne, rfl⟩ := mem_watcherEmits hl
      exact ⟨_, _, rfl, user_ne_user_of_ne hne⟩
    · obtain ⟨m, hne, rfl⟩ := mem_mentionEmits hr
      exact ⟨_, _, rfl, user_ne_user_of_ne hne⟩
  · obtain rfl := Option.some.inj h
    rcases List.mem_append.mp hm with hl | hr
    · obtain ⟨w, _, hne, rfl⟩ := mem_watcherEmits hl
      exact ⟨_, _, rfl, user_ne_user_of_ne hne⟩
    · obtain ⟨a, _, _, hne, rfl⟩ := mem_notifyUserRef hr
      exact ⟨_, _, rfl, user_ne_user_of_ne hne⟩

/-- No notification event produced by handleTaskEvent is addressed to the
acting user's own user room, for any event type. -/
theorem handleTaskEvent_notify_mem {ev : TaskEvent} {now : String} {room : Room}
    {msg : NotificationMsg} (h : Emission.notify room msg ∈ handleTaskEvent ev now) :
    room ≠ Room.user ev.userId := by
  unfold handleTaskEvent at h
  cases hte : targetedEmits ev now with
  | none =>
      rw [hte] at h
      cases h
  | some es =>
      rw [hte] at h
      rcases List.mem_append.mp h with hl | hr
      · obtain ⟨room2, msg2, heq, hne⟩ := targetedEmits_mem hte hl
        obtain ⟨rfl, rfl⟩ := Emission.notify.inj heq
        exact hne
      · obtain heq := List.mem_singleton.mp hr
        exact Emission.noConfusion heq

/-- For an event type of the enumerated set the switch takes one of the
five cases. -/
theorem targetedEmits_known_isSome (ev : TaskEvent) (now : String)
    (h : ev.eventType ∈ knownEventTypes) : (targetedEmits ev now).isSome := by
  simp only [knownEventTypes, List.mem_cons, List.mem_singleton, List.not_mem_nil,
    or_false] at h
  rcases h with h | h | h | h | h <;> simp [targetedEmits, h]

/-- Claim C1 (amended): for every event of the enumerated set, the recipient
resolution of handleTaskEvent never addresses a notification to the acting
user's own user channel; the role-channel emissions of the created case are
unconditional, so they do reach the actor when the actor holds that role. -/
theorem actor_excluded_from_user_channels (ev : TaskEvent) (now : String)
    (_h : ev.eventType ∈ knownEventTypes) :
    ∀ room msg, Emission.notify room msg ∈ handleTaskEvent ev now →
      room ≠ Room.user ev.userId :=
  fun _room _msg hm => handleTaskEvent_notify_mem hm

/-- Witness for C1 at a concrete created event. -/
theorem actor_excluded_from_user_channels_witness :
    Room.role "project_manager" ≠ Room.user "u1" :=
  actor_excluded_from_user_channels
    ⟨"created", ⟨"t1", "T", "open", none, none, none, none⟩, "u1", "ts"⟩ "now"
    (by decide) (Room.role "project_manager")
    { type := "task_update", timestamp := "now", title := "New Task Created",
      message := "Task \"T\" has been created", taskId := "t1", eventType := "created",
      task := ⟨"t1", "T", "open", none, none, none, none⟩, comment := none }
    (by decide)

/-- Counterexample to C1 as stated: on a created event whose actor holds the
project_manager role, the unconditional role-channel emission reaches a
session of the acting user. -/
theorem created_role_channel_reaches_actor :
    receivesNotify ⟨"sock1", "u1", "pm@x", "project_manager"⟩
      (handleTaskEvent ⟨"created", ⟨"t1", "T", "open", none, none, none, none⟩,
        "u1", "ts"⟩ "now") = true := by decide

/-- Claim C3 (amended): a created event with an assignee different from the
actor notifies the assignee's user channel with the assignment-specific
message, then the project_manager and admin role channels with the generic
message, then broadcasts; no notification is addressed to the actor's user
channel, but the role emissions reach the actor when the actor holds one of
those roles. -/
theorem created_event_fanout (t : TaskSnapshot) (u1 u2 ts now : String)
    (ha : t.assignedTo = some ⟨u2⟩) (h2 : u2 ≠ "") (h21 : u2 ≠ u1) :
    handleTaskEvent ⟨"created", t, u1, ts⟩ now
      = [Emission.notify (Room.user u2)
           { type := "task_update", timestamp := now, title := "New Task Created",
             message := "You have been assigned a new task: \"" ++ t.title ++ "\"",
             taskId := t._id, eventType := "created", task := t, comment := none },
         Emission.notify (Room.role "project_manager")
           { type := "task_update", timestamp := now, title := "New Task Created",
             message := "Task \"" ++ t.title ++ "\" has been created",
             taskId := t._id, eventType := "created", task := t, comment := none },
         Emission.notify (Room.role "admin")
           { type := "task_update", timestamp := now, title := "New Task Created",
             message := "Task \"" ++ t.title ++ "\" has been created",
             taskId := t._id, eventType := "created", task := t, comment := none },
         Emission.taskUpdate
           { eventType := "created", task := t, userId := u1, timestamp := ts }]
    ∧ ∀ room msg,
        Emission.notify room msg ∈ handleTaskEvent ⟨"created", t, u1, ts⟩ now →
          room ≠ Room.user u1 := by
  constructor
  · simp [handleTaskEvent, targetedEmits, notifyUserRef, ha, h2, h21]
  · intro room msg hm
    exact handleTaskEvent_notify_mem hm

/-- Witness for C3 at a concrete created event. -/
theorem created_event_fanout_witness :
    handleTaskEvent
        ⟨"created", ⟨"t1", "T", "open", some ⟨"U2"⟩, none, none, none⟩, "U1", "ts"⟩ "now"
      = [Emission.notify (Room.user "U2")
           { type := "task_update", timestamp := "now", title := "New Task Created",
             message := "You have been assigned a new task: \"T\"", taskId := "t1",
             eventType := "created",
             task := ⟨"t1", "T", "open", some ⟨"U2"⟩, none, none, none⟩, comment := none },
         Emission.notify (Room.role "project_manager")
           { type := "task_update", timestamp := "now", title := "New Task Created",
             message := "Task \"T\" has been created", taskId := "t1",
             eventType := "created",
             task := ⟨"t1", "T", "open", some ⟨"U2"⟩, none, none, none⟩, comment := none },
         Emission.notify (Room.role "admin")
           { type := "task_update", timestamp := "now", title := "New Task Created",
             message := "Task \"T\" has been created", taskId := "t1",
             eventType := "created",
             task := ⟨"t1", "T", "open", some ⟨"U2"⟩, none, none, none⟩, comment := none },
         Emission.taskUpdate
           { eventType := "created",
             task := ⟨"t1", "T", "open", some ⟨"U2"⟩, none, none, none⟩,
             userId := "U1", timestamp := "ts" }] :=
  (created_event_fanout ⟨"t1", "T", "open", some ⟨"U2"⟩, none, none, none⟩
    "U1" "U2" "ts" "now" rfl (by decide) (by decide)).1

/-- Counterexample to C3 as stated: when the acting user U1 holds the
project_manager role, the created event's role emission does reach U1. -/
theorem created_event_reaches_acting_manager :
    receivesNotify ⟨"sock1", "U1", "pm@x", "project_manager"⟩
      (handleTaskEvent ⟨"created",
        ⟨"t1", "T", "open", some ⟨"U2"⟩, none, none, none⟩, "U1", "ts"⟩ "now") = true := by
  decide

/-- Claim C4 (amended): for every event whose type is in the enumerated set,
exactly one task update broadcast carrying the event type, the snapshot,
the actor and the event timestamp is emitted; for any other event type the
handler returns early and emits nothing, broadcast included. -/
theorem task_update_broadcast_per_known_event (ev : TaskEvent) (now : String) :
    (ev.eventType ∈ knownEventTypes →
      taskUpdateCount (handleTaskEvent ev now) = 1
      ∧ Emission.taskUpdate
          { eventType := ev.eventType, task := ev.task, userId := ev.userId,
            timestamp := ev.timestamp } ∈ handleTaskEvent ev now)
    ∧ (ev.eventType ∉ knownEventTypes → handleTaskEvent ev now = []) := by
  constructor
  · intro h
    obtain ⟨es, hes⟩ := Option.isSome_iff_exists.mp (targetedEmits_known_isSome ev now h)
    have hcount : taskUpdateCount es = 0 := by
      rw [taskUpdateCount, List.countP_eq_zero]
      intro e he
      obtain ⟨room, msg, rfl, _⟩ := targetedEmits_mem hes he
      simp
    constructor
    · unfold handleTaskEvent
      rw [hes]
      simp only [taskUpdateCount] at hcount
      simp [taskUpdateCount, List.countP_append, hcount]
    · unfold handleTaskEvent
      rw [hes]
      exact List.mem_append_right _ (List.mem_singleton.mpr rfl)
  · intro h
    simp only [knownEventTypes, List.mem_cons, List.mem_singleton, List.not_mem_nil,
      or_false, not_or] at h
    obtain ⟨h1, h2, h3, h4, h5⟩ := h
    simp [handleTaskEvent, targetedEmits, h1, h2, h3, h4, h5]

/-- Witness for C4 at a concrete status_changed event. -/
theorem task_update_broadcast_per_known_event_witness :
    taskUpdateCount (handleTaskEvent
      ⟨"status_changed", ⟨"t1", "T", "done", none, none, none, none⟩, "u1", "ts"⟩ "now") = 1
    ∧ Emission.taskUpdate
        { eventType := "status_changed", task := ⟨"t1", "T", "done", none, none, none, none⟩,
          userId := "u1", timestamp := "ts" }
      ∈ handleTaskEvent
          ⟨"status_changed", ⟨"t1", "T", "done", none, none, none, none⟩, "u1", "ts"⟩ "now" :=
  (task_update_broadcast_per_known_event
    ⟨"status_changed", ⟨"t1", "T", "done", none, none, none, none⟩, "u1", "ts"⟩ "now").1
    (by decide)

/-- Counterexample to C4 as stated: an event of an unknown type produces no
task update broadcast at all (the handler returns before the broadcast). -/
theorem unknown_event_no_broadcast :
    taskUpdateCount (handleTaskEvent
      ⟨"archived", ⟨"t1", "T", "open", none, none, none, none⟩, "u1", "ts"⟩ "now") ≠ 1 := by
  decide

/-! The bounded offline queue (claim C2). -/

/-- The state produced by a successful storeOfflineNotification:
push, trim to the first 50, reset the 7-day TTL. -/
theorem storeOffline_some (st : RedisState) (u : String) (p : NotifPayload) (nid : String) :
    storeOfflineNotification (some st) false u p nid
      = some (((st.lPush ("notifications:" ++ u) ⟨p, nid, true⟩).lTrim
          ("notifications:" ++ u) 0 49).expire ("notifications:" ++ u)
            (7 * 24 * 60 * 60)) := rfl

/-- One successful append turns the stored queue into the first 50 elements
of the new entry consed onto the previous queue. -/
theorem getOffline_store (st : RedisState) (u : String) (p : NotifPayload) (nid : String) :
    getOfflineNotifications (storeOfflineNotification (some st) false u p nid) false u
      = (({ payload := p, id := nid, stored := true } : StoredNotification)
          :: getOfflineNotifications (some st) false u).take 50 := by
  rw [storeOffline_some]
  simp [getOfflineNotifications, getOfflineNotificationsBody, attempt, andThen,
    catchDefault, RedisState.lRangeAll]

theorem take_append_take {α : Type} (n : Nat) (xs l : List α) :
    (xs ++ l.take n).take n = (xs ++ l).take n := by
  rw [List.take_append_eq_append_take, List.take_append_eq_append_take, List.take_take]
  rw [Nat.min_eq_left (Nat.sub_le n xs.length)]

/-- A sequence of append calls on one user's offline queue, in call order. -/
def appendAll (u : String) (items : List (NotifPayload × String))
    (client : Option RedisState) : Option RedisState :=
  items.foldl (fun c pr => storeOfflineNotification c false u pr.1 pr.2) client

theorem appendAll_queue (u : String) (items : List (NotifPayload × String)) :
    ∀ st : RedisState,
      (getOfflineNotifications (some st) false u).length ≤ 50 →
      getOfflineNotifications (appendAll u items (some st)) false u
        = ((items.map (fun pr =>
              ({ payload := pr.1, id := pr.2, stored := true } : StoredNotification))).reverse
            ++ getOfflineNotifications (some st) false u).take 50 := by
  induction items with
  | nil =>
      intro st h
      simp [appendAll, List.take_of_length_le h]
  | cons i is ih =>
      intro st h
      have hq1 := getOffline_store st u i.1 i.2
      have hfold : appendAll u (i :: is) (some st)
          = appendAll u is (storeOfflineNotification (some st) false u i.1 i.2) := rfl
      rw [hfold, storeOffline_some]
      rw [storeOffline_some] at hq1
      have hlen : (getOfflineNotifications
          (some (((st.lPush ("notifications:" ++ u) ⟨i.1, i.2, true⟩).lTrim
            ("notifications:" ++ u) 0 49).expire ("notifications:" ++ u)
              (7 * 24 * 60 * 60))) false u).length ≤ 50 := by
        rw [hq1, List.length_take]
        exact Nat.min_le_left _ _
      rw [ih _ hlen, hq1, take_append_take]
      simp [List.append_assoc]

/-- Claim C2: starting from an empty store, after any sequence of appends the
user's offline queue holds exactly the most recently appended entries,
newest first, and never more than 50 of them. -/
theorem offline_queue_retains_latest_50 (u : String)
    (items : List (NotifPayload × String)) :
    getOfflineNotifications (appendAll u items (some emptyRedis)) false u
      = ((items.map (fun pr =>
          ({ payload := pr.1, id := pr.2, stored := true } : StoredNotification))).reverse).take
            50
    ∧ (getOfflineNotifications (appendAll u items (some emptyRedis)) false u).length ≤ 50 := by
  have h0 : getOfflineNotifications (some emptyRedis) false u = [] := rfl
  have hmain := appendAll_queue u items emptyRedis (by rw [h0]; simp)
  rw [h0, List.append_nil] at hmain
  refine ⟨hmain, ?_⟩
  rw [hmain, List.length_take]
  exact Nat.min_le_left _ _
